import Mathlib

/-!
# Accounts-Payable Matching & Workflow: verification development

Shallow embedding of the invoice/PO matching engine and the document-pair
workflow of the accounts-payable repository.  The repository ships the
frontend (TypeScript) and declares the backend API types in
`frontend/lib/api.ts`; the backend matching engine itself is not part of
the source tree, so engine components are modelled from the specification
(each such definition is marked `Modelled from the spec:`).  Frontend
logic that is present in the source (`getSlaStatus`, `ActionButtons`,
`ApprovalActions`, `MatchSummaryCard`, the API type declarations) is
embedded directly from the TypeScript.
-/

namespace AP

/-- The five-level severity scale of the specification (§3):
info < low < medium < high < critical. -/
inductive Severity where
  | info
  | low
  | medium
  | high
  | critical
deriving DecidableEq, Repr

/-- Numeric rank of a severity, used to compare severities. -/
def Severity.rank : Severity → Nat
  | .info => 0
  | .low => 1
  | .medium => 2
  | .high => 3
  | .critical => 4

/-- severity ≥ medium, the blocking threshold used by the status rule. -/
def Severity.atLeastMedium (s : Severity) : Bool :=
  2 ≤ s.rank

/-- Modelled from the spec: per-issue confidence penalty
(critical −0.4, high −0.25, medium −0.1, low −0.05, info 0), §4.4 step 3. -/
def Severity.penalty : Severity → ℚ
  | .critical => 4/10
  | .high => 25/100
  | .medium => 1/10
  | .low => 5/100
  | .info => 0

/-- Modelled from the spec: relative difference `|a-b| / max(|a|,|b|,1)`
used by the numeric-tolerance field comparator (§4.1). -/
def relDiff (a b : ℚ) : ℚ :=
  |a - b| / max |a| (max |b| 1)

/-- Modelled from the spec: numeric-tolerance match rule, inclusive
boundary: match iff `relDiff a b ≤ ε` (§4.1). -/
def numericTolMatch (a b ε : ℚ) : Bool :=
  decide (relDiff a b ≤ ε)

/-- Default tolerance for totals: 1 % (README: `MATCHING_TOLERANCE`
default `0.01`). -/
def defaultTotalTolerance : ℚ := 1/100

/-- Split a character list into whitespace-separated words; `acc` holds
the characters of the word currently being read, in reverse. -/
def wordsAux : List Char → List Char → List (List Char)
  | acc, [] => if acc.isEmpty then [] else [acc.reverse]
  | acc, c :: cs =>
    if c.isWhitespace then
      (if acc.isEmpty then wordsAux [] cs else acc.reverse :: wordsAux [] cs)
    else wordsAux (c :: acc) cs

/-- Whitespace-separated words of a character list. -/
def words (s : List Char) : List (List Char) :=
  wordsAux [] s

/-- Join words with single spaces. -/
def joinWords : List (List Char) → List Char
  | [] => []
  | [w] => w
  | w :: ws => w ++ ' ' :: joinWords ws

/-- Modelled from the spec: text normalization for fuzzy comparison:
case-folded and whitespace-collapsed (§4.1). -/
def normalizeText (s : List Char) : List Char :=
  joinWords (words (s.map Char.toLower))

/-- One dynamic-programming row step for the longest-common-subsequence
table: `prevTail` holds the previous row from column `j+1` on, `diag` the
previous row's column `j`, `left` the current row's column `j`. -/
def lcsRow (c : Char) : List Char → List Nat → Nat → Nat → List Nat
  | [], _, _, _ => []
  | tj :: tr, prevTail, diag, left =>
    let pj1 := prevTail.headD 0
    let cur := if tj == c then diag + 1 else max left pj1
    cur :: lcsRow c tr prevTail.tail pj1 cur

/-- Length of a longest common subsequence of two character lists. -/
def lcs (s t : List Char) : Nat :=
  (s.foldl (fun prev c => 0 :: lcsRow c t prev.tail 0 0)
    (List.replicate (t.length + 1) 0)).getLastD 0

/-- Modelled from the spec: similarity ratio of two already-normalized
character lists, `2·LCS/(|a|+|b|)` (a standard sequence-similarity ratio;
the backend similarity implementation is not in the source tree). -/
def similarity (a b : List Char) : ℚ :=
  if a.length + b.length = 0 then 1
  else (2 * lcs a b : ℚ) / (a.length + b.length)

/-- Default fuzzy-text threshold 0.85 (§4.1). -/
def defaultFuzzyThreshold : ℚ := 85/100

/-- Modelled from the spec: fuzzy-text match rule: normalize both sides,
then match iff similarity ≥ threshold (§4.1). -/
def fuzzyMatch (a b : List Char) (θ : ℚ) : Bool :=
  decide (θ ≤ similarity (normalizeText a) (normalizeText b))

example : normalizeText "ACME  CORP.".toList = "acme corp.".toList := by decide
example : lcs "acme corp".toList "acme corp.".toList = 9 := by decide
example : numericTolMatch 1010 1000 defaultTotalTolerance = true := by
  simp [numericTolMatch, relDiff, defaultTotalTolerance]
  norm_num
example : numericTolMatch 1060 1000 defaultTotalTolerance = false := by
  simp [numericTolMatch, relDiff, defaultTotalTolerance]
  norm_num

/-! ## Data model (§3 of the spec; API types of `frontend/lib/api.ts`) -/

/-- An invoice or PO line item (§3): position, optional SKU, description,
quantity, unit price. -/
structure LineItem where
  lineNumber : Nat
  sku : Option (List Char)
  description : List Char
  quantity : ℚ
  unitPrice : ℚ
deriving DecidableEq, Repr

/-- Invoice header fields and lines (§3). -/
structure Invoice where
  vendorName : List Char
  currency : List Char
  totalAmount : ℚ
  lines : List LineItem
deriving DecidableEq, Repr

/-- Purchase-order header fields and lines (§3). -/
structure PurchaseOrder where
  vendorName : List Char
  currency : List Char
  totalAmount : ℚ
  lines : List LineItem
deriving DecidableEq, Repr

/-- A validation issue: category, severity, resolved flag (§3). -/
structure Issue where
  category : String
  severity : Severity
  resolved : Bool
deriving DecidableEq, Repr

/-- `match_status` of a MatchingResult (`MatchingResultV2` in
`frontend/lib/api.ts`): `'matched' | 'needs_review'`. -/
inductive MatchStatus where
  | matched
  | needs_review
deriving DecidableEq, Repr

/-- A scalar field comparison (`FieldComparison` in `frontend/lib/api.ts`):
field name, match flag, optional similarity.  The TS field `match` is a
Lean keyword, embedded as `matchB`. -/
structure FieldComparison where
  fieldName : String
  matchB : Bool
  similarity : Option ℚ
deriving DecidableEq, Repr

/-- A line-item comparison (`LineItemComparison` in `frontend/lib/api.ts`):
optional lines on either side, field comparisons, and `overall_match`
drawn from `'perfect' | 'partial' | 'mismatch' | 'missing'`. -/
structure LineItemComparison where
  lineNumber : Nat
  invoiceLine : Option LineItem
  poLine : Option LineItem
  fieldComparisons : List FieldComparison
  overallMatch : String
deriving DecidableEq, Repr

/-- The output of one matching run (`MatchingResultV2` plus the line
comparisons of `DocumentPairDetail`). -/
structure MatchingResult where
  matchStatus : MatchStatus
  confidence : ℚ
  issues : List Issue
  lineComparisons : List LineItemComparison
deriving DecidableEq, Repr

/-! ## Field comparator and issue classifier (spec §4.1, §4.3) -/

/-- Modelled from the spec: the total-amount field comparison
(numeric tolerance, §4.1). -/
def compareTotal (a b ε : ℚ) : FieldComparison :=
  { fieldName := "total_amount", matchB := numericTolMatch a b ε, similarity := none }

/-- Modelled from the spec: the vendor-name field comparison (fuzzy text,
§4.1): both sides normalized, similarity recorded for transparency. -/
def compareVendor (a b : List Char) (θ : ℚ) : FieldComparison :=
  { fieldName := "vendor_name", matchB := fuzzyMatch a b θ,
    similarity := some (similarity (normalizeText a) (normalizeText b)) }

/-- Modelled from the spec: `vendor_mismatch` is critical and raised iff
the fuzzy vendor comparison fails (§4.3). -/
def vendorIssues (a b : List Char) : List Issue :=
  if fuzzyMatch a b defaultFuzzyThreshold then []
  else [{ category := "vendor_mismatch", severity := .critical, resolved := false }]

/-- Modelled from the spec: `currency_mismatch` is critical and raised iff
currency strings differ exactly (§4.1, §4.3). -/
def currencyIssues (a b : List Char) : List Issue :=
  if a = b then []
  else [{ category := "currency_mismatch", severity := .critical, resolved := false }]

/-- Modelled from the spec: `total_mismatch` is raised iff the relative
difference exceeds the tolerance; severity medium for ≤ 5 %, high above
5 % (§4.3). -/
def totalIssues (a b ε : ℚ) : List Issue :=
  if numericTolMatch a b ε then []
  else if relDiff a b ≤ 5/100 then
    [{ category := "total_mismatch", severity := .medium, resolved := false }]
  else
    [{ category := "total_mismatch", severity := .high, resolved := false }]

/-! ## Line item aligner (spec §4.2) -/

/-- Default fuzzy threshold for line-description alignment, 0.6 (§4.2). -/
def defaultLineAlignThreshold : ℚ := 6/10

/-- Modelled from the spec: step 1 of the aligner — greedy SKU pairing in
invoice-line order; an invoice line pairs iff exactly one unclaimed PO
line carries the same SKU (§4.2).  Returns (pairs, unmatched invoice
lines, remaining PO pool). -/
def skuAlign : List LineItem → List LineItem →
    List (LineItem × LineItem) × List LineItem × List LineItem
  | [], pool => ([], [], pool)
  | il :: ils, pool =>
    let claimed : Option LineItem :=
      match il.sku with
      | some s =>
        match pool.filter (fun p => p.sku = some s) with
        | [p] => some p
        | _ => none
      | none => none
    match claimed with
    | some p =>
      let (prs, um, rem) := skuAlign ils (pool.erase p)
      ((il, p) :: prs, um, rem)
    | none =>
      let (prs, um, rem) := skuAlign ils pool
      (prs, il :: um, rem)

/-- Modelled from the spec: best fuzzy candidate for a description among
the remaining pool — highest similarity at or above the threshold, ties
broken by PO line number ascending (§4.2 step 2). -/
def bestFuzzy (desc : List Char) (pool : List LineItem) : Option (LineItem × ℚ) :=
  pool.foldl
    (fun best p =>
      let s := similarity (normalizeText desc) (normalizeText p.description)
      if s < defaultLineAlignThreshold then best
      else
        match best with
        | none => some (p, s)
        | some (q, sq) =>
          if sq < s ∨ (s = sq ∧ p.lineNumber < q.lineNumber) then some (p, s) else best)
    none

/-- Modelled from the spec: step 2 of the aligner — fuzzy description
pairing for invoice lines left unclaimed by step 1 (§4.2). -/
def fuzzyAlign : List LineItem → List LineItem →
    List (LineItem × LineItem) × List LineItem × List LineItem
  | [], pool => ([], [], pool)
  | il :: ils, pool =>
    match bestFuzzy il.description pool with
    | some (p, _) =>
      let (prs, um, rem) := fuzzyAlign ils (pool.erase p)
      ((il, p) :: prs, um, rem)
    | none =>
      let (prs, um, rem) := fuzzyAlign ils pool
      (prs, il :: um, rem)

/-- Modelled from the spec: per-line numeric tolerance, same 1 % default
as the totals (§4.2 step 5). -/
def defaultLineTolerance : ℚ := 1/100

/-- Modelled from the spec: field comparisons and overall match for one
paired line — quantity and unit price under numeric tolerance; `mismatch`
if either disagrees beyond tolerance, else `perfect` for SKU pairs and
`partial` for similarity-based pairs (§4.2 step 5). -/
def comparePairedLine (bySku : Bool) (il pl : LineItem) : LineItemComparison :=
  let fq := { fieldName := "quantity",
              matchB := numericTolMatch il.quantity pl.quantity defaultLineTolerance,
              similarity := none : FieldComparison }
  let fp := { fieldName := "unit_price",
              matchB := numericTolMatch il.unitPrice pl.unitPrice defaultLineTolerance,
              similarity := none : FieldComparison }
  { lineNumber := il.lineNumber, invoiceLine := some il, poLine := some pl,
    fieldComparisons := [fq, fp],
    overallMatch :=
      if !fq.matchB || !fp.matchB then "mismatch"
      else if bySku then "perfect" else "partial" }

/-- Modelled from the spec: steps 3–4 — unpaired lines become `missing`
comparisons on the PO side or the invoice side (§4.2). -/
def missingComparison (invSide : Bool) (l : LineItem) : LineItemComparison :=
  { lineNumber := l.lineNumber,
    invoiceLine := if invSide then some l else none,
    poLine := if invSide then none else some l,
    fieldComparisons := [], overallMatch := "missing" }

/-- Modelled from the spec: the full line-item aligner (§4.2): SKU pairing,
then fuzzy pairing, then missing markers for the leftovers. -/
def alignLines (invLines poLines : List LineItem) : List LineItemComparison :=
  let (skuPairs, unclaimedInv, pool1) := skuAlign invLines poLines
  let (fuzzyPairs, stillInv, pool2) := fuzzyAlign unclaimedInv pool1
  (skuPairs.map fun (il, pl) => comparePairedLine true il pl)
    ++ (fuzzyPairs.map fun (il, pl) => comparePairedLine false il pl)
    ++ stillInv.map (missingComparison true)
    ++ pool2.map (missingComparison false)

/-- Modelled from the spec: line-level issues (§4.3): `line_item_missing`
for missing lines, `line_item_mismatch` for every pairing that is not
`perfect` (medium for `mismatch`, low for `partial`; the spec uses the
four-level scale at line granularity without fixing the exact level). -/
def lineIssues (comps : List LineItemComparison) : List Issue :=
  comps.foldr
    (fun c acc =>
      if c.overallMatch = "missing" then
        { category := "line_item_missing", severity := .medium, resolved := false } :: acc
      else if c.overallMatch = "mismatch" then
        { category := "line_item_mismatch", severity := .medium, resolved := false } :: acc
      else if c.overallMatch = "partial" then
        { category := "line_item_mismatch", severity := .low, resolved := false } :: acc
      else acc)
    []

/-! ## Matching engine aggregation (spec §4.4) -/

/-- Modelled from the spec: total confidence penalty of the unresolved
issues (§4.4 step 3; resolved issues are non-blocking per §4.5). -/
def sumPenalty (issues : List Issue) : ℚ :=
  ((issues.filter (fun i => !i.resolved)).map (fun i => i.severity.penalty)).sum

/-- Modelled from the spec: confidence = 1.0 minus the severity-scaled
penalties, floored at 0.0 (§4.4 step 3). -/
def computeConfidence (issues : List Issue) : ℚ :=
  max 0 (1 - sumPenalty issues)

/-- Modelled from the spec: `matched` iff there is no unresolved issue of
severity ≥ medium (§4.4 step 4). -/
def computeStatus (issues : List Issue) : MatchStatus :=
  if issues.any (fun i => !i.resolved && i.severity.atLeastMedium) then .needs_review
  else .matched

/-- Modelled from the spec: the engine operation
`match(invoice, purchaseOrder|null) → MatchingResult` (§4.4; `match` is a
Lean keyword, embedded as `matchEngine`).  A null PO short-circuits into a
single critical `missing_po` issue with confidence 0.0, status
`needs_review`, and no line comparison attempted. -/
def matchEngine (inv : Invoice) (po : Option PurchaseOrder) : MatchingResult :=
  match po with
  | none =>
    { matchStatus := .needs_review, confidence := 0,
      issues := [{ category := "missing_po", severity := .critical, resolved := false }],
      lineComparisons := [] }
  | some p =>
    let headerIssues :=
      vendorIssues inv.vendorName p.vendorName
        ++ currencyIssues inv.currency p.currency
        ++ totalIssues inv.totalAmount p.totalAmount defaultTotalTolerance
    let comps := alignLines inv.lines p.lines
    let issues := headerIssues ++ lineIssues comps
    { matchStatus := computeStatus issues, confidence := computeConfidence issues,
      issues := issues, lineComparisons := comps }

/-- Replace the `i`-th issue by its resolved copy. -/
def resolveAt : List Issue → Nat → List Issue
  | [], _ => []
  | i :: is, 0 => { i with resolved := true } :: is
  | i :: is, n + 1 => i :: resolveAt is n

/-- Modelled from the spec: `resolveIssue` marks one issue resolved and
recomputes confidence and status without re-running comparisons (§4.5). -/
def resolveIssue (r : MatchingResult) (idx : Nat) : MatchingResult :=
  let issues := resolveAt r.issues idx
  { r with issues := issues,
           matchStatus := computeStatus issues,
           confidence := computeConfidence issues }

/-! ## Workflow state machine (spec §4.5; types from `frontend/lib/api.ts`) -/

/-- `WorkflowStage` from `frontend/lib/api.ts`:
`'uploaded' | 'extracted' | 'matched' | 'validated' | 'approved'`. -/
inductive WorkflowStage where
  | uploaded
  | extracted
  | matched
  | validated
  | approved
deriving DecidableEq, Repr

/-- `PairStatus` from `frontend/lib/api.ts`:
`'in_progress' | 'needs_review' | 'approved' | 'rejected'`. -/
inductive PairStatus where
  | in_progress
  | needs_review
  | approved
  | rejected
deriving DecidableEq, Repr

/-- Index of a stage in the fixed order of the `stages` array of
`WorkflowStepper.tsx` (uploaded, extracted, matched, validated,
approved). -/
def WorkflowStage.idx : WorkflowStage → Nat
  | .uploaded => 0
  | .extracted => 1
  | .matched => 2
  | .validated => 3
  | .approved => 4

/-- The successor stage in the fixed workflow order, none after
`approved`. -/
def WorkflowStage.next : WorkflowStage → Option WorkflowStage
  | .uploaded => some .extracted
  | .extracted => some .matched
  | .matched => some .validated
  | .validated => some .approved
  | .approved => none

/-- The workflow-relevant state of a document pair (§3). -/
structure DocumentPair where
  currentStage : WorkflowStage
  overallStatus : PairStatus
deriving DecidableEq, Repr

/-- Drop leading and trailing whitespace, like `String.prototype.trim`. -/
def trimChars (s : List Char) : List Char :=
  ((s.dropWhile Char.isWhitespace).reverse.dropWhile Char.isWhitespace).reverse

/-- Modelled from the spec: the valid workflow transitions (§4.5).
Stages advance one step at a time on non-terminal pairs; advancing into
`approved` requires `overall_status ≠ needs_review`; `rejected` is
reachable from any non-terminal state given a non-empty reason and keeps
the stage; issue resolution may flip the status between `in_progress` and
`needs_review` without touching the stage. -/
inductive Step : DocumentPair → DocumentPair → Prop where
  | advance (p : DocumentPair) (s : WorkflowStage)
      (hnext : p.currentStage.next = some s)
      (hterm : p.overallStatus ≠ .approved ∧ p.overallStatus ≠ .rejected)
      (happ : s = .approved → p.overallStatus ≠ .needs_review) :
      Step p ⟨s, if s = .approved then .approved else p.overallStatus⟩
  | reject (p : DocumentPair) (reason : List Char)
      (hreason : trimChars reason ≠ [])
      (hterm : p.overallStatus ≠ .approved ∧ p.overallStatus ≠ .rejected) :
      Step p ⟨p.currentStage, .rejected⟩
  | statusUpdate (p : DocumentPair) (st : PairStatus)
      (hst : st = .in_progress ∨ st = .needs_review)
      (hterm : p.overallStatus ≠ .approved ∧ p.overallStatus ≠ .rejected) :
      Step p ⟨p.currentStage, st⟩

/-- Zero or more valid workflow transitions. -/
def StepStar : DocumentPair → DocumentPair → Prop :=
  Relation.ReflTransGen Step

/-- The error taxonomy relevant to the workflow operations (§7). -/
inductive WorkflowError where
  | precondition
deriving DecidableEq, Repr

/-- Modelled from the spec: the explicit approval action (§4.5, §7):
rejected with a precondition error while `overall_status = needs_review`,
on a terminal pair, or out of order (stage ≠ `validated`); otherwise the
pair becomes `approved`/`approved`. -/
def approve (p : DocumentPair) : Except WorkflowError DocumentPair :=
  if p.overallStatus = .needs_review then .error .precondition
  else if p.overallStatus = .approved ∨ p.overallStatus = .rejected then .error .precondition
  else if p.currentStage = .validated then .ok ⟨.approved, .approved⟩
  else .error .precondition

/-- The stored pair after an approval attempt: on an error the pair is
left unchanged (§7). -/
def approveRun (p : DocumentPair) : DocumentPair :=
  match approve p with
  | .ok q => q
  | .error _ => p

/-! ## Frontend logic embedded from the TypeScript source -/

/-- `canApprove` from `ActionButtons` (src/unnamed/part_001):
`['matched', 'needs_review'].includes(invoice.status)`. -/
def canApprove (status : String) : Bool :=
  ["matched", "needs_review"].contains status

/-- `canReject` from `ActionButtons` (src/unnamed/part_001):
`!['approved', 'rejected'].includes(invoice.status)`. -/
def canReject (status : String) : Bool :=
  !(["approved", "rejected"].contains status)

/-- `canRoute` from `ActionButtons` (src/unnamed/part_001):
`!['approved', 'rejected', 'routed'].includes(invoice.status)`. -/
def canRoute (status : String) : Bool :=
  !(["approved", "rejected", "routed"].contains status)

/-- `handleReject` from `ApprovalActions.tsx`: the rejection proceeds only
when `notes.trim()` is non-empty. -/
def handleRejectProceeds (notes : List Char) : Bool :=
  !(trimChars notes).isEmpty

/-- The Approve button of `ApprovalActions.tsx` is
`disabled={loading || requiresReview}`. -/
def approveButtonDisabled (loading requiresReview : Bool) : Bool :=
  loading || requiresReview

/-- The combined source-level reject gate: the reject action is offered
only in states allowed by `canReject` (part_001) and proceeds only with a
non-empty trimmed reason (`ApprovalActions.tsx`). -/
def rejectAllowed (status : String) (reason : List Char) : Bool :=
  canReject status && !(trimChars reason).isEmpty

/-- The severity union of `ValidationIssue` in `frontend/lib/api.ts`:
`'critical' | 'warning' | 'info'`. -/
def validationIssueSeverities : List String :=
  ["critical", "warning", "info"]

/-- The severity union of `MatchingIssueV2` in `frontend/lib/api.ts`:
`'low' | 'medium' | 'high' | 'critical'`. -/
def matchingIssueSeverities : List String :=
  ["low", "medium", "high", "critical"]

/-- The five-level severity set of the specification (§3):
{info, low, medium, high, critical}. -/
def fiveLevelSeverities : List String :=
  ["info", "low", "medium", "high", "critical"]

/-- The Total Amount row of `MatchSummaryCard` (src/unnamed/part_006):
match iff both totals are present and
`Math.abs(invoice.total_amount - po.total_amount) < 0.01`. -/
def summaryTotalRowMatch (invTotal poTotal : Option ℚ) : Bool :=
  match invTotal, poTotal with
  | some a, some b => decide (|a - b| < 1/100)
  | _, _ => false

/-- SLA classification returned by `getSlaStatus`
(src/unnamed/part_011): `'overdue'`, `'urgent'` ("Due soon"), or `'ok'`
("Due in …") carrying the remaining whole hours and minutes. -/
inductive SlaClass where
  | overdue
  | urgent
  | due (hours : ℤ) (minutes : ℤ)
deriving DecidableEq, Repr

/-- `getSlaStatus` from the review-queue page (src/unnamed/part_011),
with times in epoch milliseconds:
`hoursUntilDeadline = (deadline - now) / (1000*60*60)`;
`overdue` when negative, `urgent` when below 2, otherwise `ok` with
`hours = floor(h)` and `minutes = floor((h - hours) * 60)`; null without a
deadline. -/
def getSlaStatus (deadline : Option ℤ) (now : ℤ) : Option SlaClass :=
  match deadline with
  | none => none
  | some d =>
    let hoursUntilDeadline : ℚ := (d - now : ℤ) / (1000 * 60 * 60)
    if hoursUntilDeadline < 0 then some .overdue
    else if hoursUntilDeadline < 2 then some .urgent
    else
      let hours : ℤ := ⌊hoursUntilDeadline⌋
      let minutes : ℤ := ⌊(hoursUntilDeadline - hours) * 60⌋
      some (.due hours minutes)

/-! ## Concrete fixtures for the spec scenarios -/

/-- Scenario A/C invoice: vendor "Acme Corp", total 1010.00, no lines. -/
def invScenarioA : Invoice :=
  { vendorName := "Acme Corp".toList, currency := "USD".toList,
    totalAmount := 1010, lines := [] }

/-- Scenario A/C purchase order: vendor "ACME CORP.", total 1000.00. -/
def poScenarioA : PurchaseOrder :=
  { vendorName := "ACME CORP.".toList, currency := "USD".toList,
    totalAmount := 1000, lines := [] }

/-- Scenario D invoice: references a PO that does not exist. -/
def invScenarioD : Invoice :=
  { vendorName := "Globex".toList, currency := "USD".toList,
    totalAmount := 500, lines := [] }

/-- The status rule of §4.4 step 4 as a property of a matching result:
`matched` exactly when no unresolved issue has severity ≥ medium. -/
def statusInv (r : MatchingResult) : Prop :=
  r.matchStatus = .matched ↔
    ∀ i ∈ r.issues, i.resolved = true ∨ i.severity.atLeastMedium = false

/-! ## Helper lemmas -/

lemma Severity.penalty_nonneg (s : Severity) : 0 ≤ s.penalty := by
  cases s <;> norm_num [Severity.penalty]

lemma sumPenalty_nonneg (issues : List Issue) : 0 ≤ sumPenalty issues := by
  apply List.sum_nonneg
  intro x hx
  simp only [List.mem_map] at hx
  obtain ⟨i, _, rfl⟩ := hx
  exact Severity.penalty_nonneg _

lemma computeConfidence_nonneg (issues : List Issue) : 0 ≤ computeConfidence issues :=
  le_max_left 0 _

lemma computeConfidence_le_one (issues : List Issue) : computeConfidence issues ≤ 1 := by
  unfold computeConfidence
  apply max_le
  · norm_num
  · linarith [sumPenalty_nonneg issues]

lemma computeConfidence_nil : computeConfidence [] = 1 := by
  simp [computeConfidence, sumPenalty]

lemma computeStatus_eq_matched (issues : List Issue) :
    computeStatus issues = .matched ↔
      issues.any (fun i => !i.resolved && i.severity.atLeastMedium) = false := by
  unfold computeStatus
  split_ifs with h
  · simp [h]
  · simp only [Bool.not_eq_true] at h
    simp [h]

lemma no_blocking_iff (issues : List Issue) :
    issues.any (fun i => !i.resolved && i.severity.atLeastMedium) = false ↔
      ∀ i ∈ issues, i.resolved = true ∨ i.severity.atLeastMedium = false := by
  simp only [List.any_eq_false, Bool.and_eq_true, Bool.not_eq_true', not_and]
  constructor
  · intro h i hi
    rcases hres : i.resolved with _ | _
    · exact Or.inr (by simpa using h i hi hres)
    · exact Or.inl rfl
  · intro h i hi hres
    rcases h i hi with h1 | h2
    · rw [hres] at h1; cases h1
    · simp [h2]

lemma statusInv_of_computed (issues : List Issue) (conf : ℚ)
    (comps : List LineItemComparison) :
    statusInv ⟨computeStatus issues, conf, issues, comps⟩ := by
  unfold statusInv
  simpa using (computeStatus_eq_matched issues).trans (no_blocking_iff issues)

lemma statusInv_matchEngine (inv : Invoice) (po : Option PurchaseOrder) :
    statusInv (matchEngine inv po) := by
  cases po with
  | none =>
    simp [statusInv, matchEngine, Severity.atLeastMedium, Severity.rank]
  | some p =>
    exact statusInv_of_computed _ _ _

lemma statusInv_resolveIssue (r : MatchingResult) (idx : Nat) :
    statusInv (resolveIssue r idx) :=
  statusInv_of_computed _ _ _

lemma contains_two_iff (s a b : String) :
    ([a, b].contains s = true) ↔ (s = a ∨ s = b) := by
  simp [List.contains]

lemma normAcme : normalizeText "Acme Corp".toList = "acme corp".toList := by decide

lemma normACME : normalizeText "ACME CORP.".toList = "acme corp.".toList := by decide

lemma lcsAcme : lcs "acme corp".toList "acme corp.".toList = 9 := by decide

lemma lenAcme1 : ("acme corp".toList).length = 9 := by decide

lemma lenAcme2 : ("acme corp.".toList).length = 10 := by decide

lemma simAcme : similarity "acme corp".toList "acme corp.".toList = 18/19 := by
  unfold similarity
  rw [lcsAcme, lenAcme1, lenAcme2]
  norm_num

lemma fuzzyAcme :
    fuzzyMatch "Acme Corp".toList "ACME CORP.".toList defaultFuzzyThreshold = true := by
  unfold fuzzyMatch
  rw [normAcme, normACME, simAcme]
  simp only [defaultFuzzyThreshold, decide_eq_true_eq]
  norm_num

lemma vendorIssuesAcme : vendorIssues "Acme Corp".toList "ACME CORP.".toList = [] := by
  unfold vendorIssues
  rw [fuzzyAcme]
  simp

lemma tolScenarioA : numericTolMatch 1010 1000 defaultTotalTolerance = true := by
  simp only [numericTolMatch, relDiff, defaultTotalTolerance, decide_eq_true_eq]
  norm_num

lemma totalIssuesScenarioA : totalIssues 1010 1000 defaultTotalTolerance = [] := by
  simp [totalIssues, tolScenarioA]

lemma scenarioA_issues : (matchEngine invScenarioA (some poScenarioA)).issues = [] := by
  show vendorIssues "Acme Corp".toList "ACME CORP.".toList
      ++ currencyIssues "USD".toList "USD".toList
      ++ totalIssues 1010 1000 defaultTotalTolerance
      ++ lineIssues (alignLines [] []) = []
  rw [vendorIssuesAcme, totalIssuesScenarioA]
  simp [currencyIssues, lineIssues, alignLines, skuAlign, fuzzyAlign]

/-! ## Claim theorems -/

/-- C1: the total-amount comparison matches iff
`|a-b| / max(|a|,|b|,1) ≤ ε` with the boundary inclusive and ε defaulting
to 1 %; invoice total 1010.00 against PO total 1000.00 at the default
tolerance matches and the matching run raises no `total_mismatch`
issue. -/
theorem total_amount_tolerance_correct :
    (∀ a b ε : ℚ, (compareTotal a b ε).matchB = true ↔ |a - b| / max |a| (max |b| 1) ≤ ε)
    ∧ (compareTotal 1010 1000 defaultTotalTolerance).matchB = true
    ∧ totalIssues 1010 1000 defaultTotalTolerance = []
    ∧ (matchEngine invScenarioA (some poScenarioA)).issues = [] := by
  refine ⟨?_, ?_, totalIssuesScenarioA, scenarioA_issues⟩
  · intro a b ε
    simp [compareTotal, numericTolMatch, relDiff]
  · simp [compareTotal, tolScenarioA]

/-- C2: the vendor-field comparison normalizes both values and reports
match = true iff the similarity ratio reaches the 0.85 threshold;
"Acme Corp" vs "ACME CORP." matches with similarity 18/19 ≥ 0.9 and
raises no vendor issue. -/
theorem vendor_fuzzy_match_correct :
    (∀ (a b : List Char) (θ : ℚ),
        (compareVendor a b θ).matchB = true ↔
          θ ≤ similarity (normalizeText a) (normalizeText b))
    ∧ (compareVendor "Acme Corp".toList "ACME CORP.".toList
        defaultFuzzyThreshold).matchB = true
    ∧ (compareVendor "Acme Corp".toList "ACME CORP.".toList
        defaultFuzzyThreshold).similarity = some (18/19)
    ∧ ((9:ℚ)/10 ≤ 18/19)
    ∧ vendorIssues "Acme Corp".toList "ACME CORP.".toList = [] := by
  refine ⟨?_, ?_, ?_, by norm_num, vendorIssuesAcme⟩
  · intro a b θ
    simp [compareVendor, fuzzyMatch]
  · exact fuzzyAcme
  · show some (similarity (normalizeText "Acme Corp".toList)
      (normalizeText "ACME CORP.".toList)) = some (18/19)
    rw [normAcme, normACME, simAcme]

/-- C3: matching with an absent purchase order returns exactly one issue,
of category `missing_po` and severity critical, confidence 0.0, status
`needs_review`, and attempts no line-item comparison. -/
theorem missing_po_short_circuit :
    ∀ inv : Invoice,
      (matchEngine inv none).issues.length = 1
      ∧ (matchEngine inv none).issues =
          [{ category := "missing_po", severity := .critical, resolved := false }]
      ∧ (matchEngine inv none).confidence = 0
      ∧ (matchEngine inv none).matchStatus = .needs_review
      ∧ (matchEngine inv none).lineComparisons = [] :=
  fun _ => ⟨rfl, rfl, rfl, rfl, rfl⟩

/-- C4 (amended): when a PO is present, confidence equals 1.0 minus the
severity-scaled penalties floored at 0.0; the missing-PO branch sets
confidence directly to 0.0 instead of applying the formula; in all cases
confidence lies in [0.0, 1.0] and equals 1.0 with zero issues. -/
theorem confidence_bounds_amended :
    ∀ (inv : Invoice) (po : Option PurchaseOrder),
      (0 ≤ (matchEngine inv po).confidence ∧ (matchEngine inv po).confidence ≤ 1)
      ∧ ((matchEngine inv po).issues = [] → (matchEngine inv po).confidence = 1)
      ∧ (∀ p, po = some p →
          (matchEngine inv po).confidence
            = max 0 (1 - sumPenalty (matchEngine inv po).issues))
      ∧ (po = none → (matchEngine inv po).confidence = 0) := by
  intro inv po
  cases po with
  | none =>
    refine ⟨⟨le_refl 0, by show (0:ℚ) ≤ 1; norm_num⟩, ?_, ?_, fun _ => rfl⟩
    · intro h
      simp [matchEngine] at h
    · intro p hp
      cases hp
  | some p =>
    refine ⟨⟨computeConfidence_nonneg _, computeConfidence_le_one _⟩, ?_, ?_, ?_⟩
    · intro h
      have hc : (matchEngine inv (some p)).confidence
          = computeConfidence ((matchEngine inv (some p)).issues) := rfl
      rw [hc, h]
      exact computeConfidence_nil
    · intro q hq
      rfl
    · intro h
      cases h

/-- Witness for C4 (amended): the two branches at concrete inputs. -/
theorem confidence_bounds_amended_witness :
    (matchEngine invScenarioD none).confidence = 0
    ∧ (matchEngine invScenarioA (some poScenarioA)).confidence = 1 :=
  ⟨(confidence_bounds_amended invScenarioD none).2.2.2 rfl,
   (confidence_bounds_amended invScenarioA (some poScenarioA)).2.1 scenarioA_issues⟩

/-- C4 counterexample: in the missing-PO run the confidence is 0.0, while
the per-issue penalty formula over its single critical issue yields 3/5;
the claim's "for every matching run the confidence equals the formula"
fails there. -/
theorem confidence_formula_counterexample :
    (matchEngine invScenarioD none).confidence = 0
    ∧ max 0 (1 - sumPenalty (matchEngine invScenarioD none).issues) = 3/5
    ∧ (matchEngine invScenarioD none).confidence
        ≠ max 0 (1 - sumPenalty (matchEngine invScenarioD none).issues) := by
  have hs : sumPenalty (matchEngine invScenarioD none).issues = 2/5 := by
    norm_num [matchEngine, sumPenalty, Severity.penalty]
  have hm : max (0:ℚ) (1 - 2/5) = 3/5 := by
    rw [max_eq_right (by norm_num : (0:ℚ) ≤ 1 - 2/5)]
    norm_num
  refine ⟨rfl, ?_, ?_⟩
  · rw [hs]; exact hm
  · rw [hs, hm]
    norm_num [matchEngine]

/-- C5: a matching result — as produced by the engine or recomputed after
an issue resolution — has status `matched` iff it has no unresolved issue
of severity ≥ medium. -/
theorem match_status_iff_no_blocking :
    ∀ (inv : Invoice) (po : Option PurchaseOrder) (idx : Nat),
      statusInv (matchEngine inv po)
      ∧ statusInv (resolveIssue (matchEngine inv po) idx) :=
  fun inv po idx => ⟨statusInv_matchEngine inv po, statusInv_resolveIssue _ idx⟩

lemma next_idx_le {a b : WorkflowStage} (h : a.next = some b) : a.idx ≤ b.idx := by
  cases a <;> simp [WorkflowStage.next] at h <;> subst h <;>
    simp [WorkflowStage.idx]

lemma step_stage_mono {p q : DocumentPair} (h : Step p q) :
    p.currentStage.idx ≤ q.currentStage.idx := by
  cases h with
  | advance s hnext hterm happ => exact next_idx_le hnext
  | reject reason hreason hterm => exact le_refl _
  | statusUpdate st hst hterm => exact le_refl _

/-- C6: along every sequence of valid workflow transitions the stage index
in the fixed order uploaded, extracted, matched, validated, approved never
decreases. -/
theorem stage_monotone :
    ∀ p q : DocumentPair, StepStar p q →
      p.currentStage.idx ≤ q.currentStage.idx := by
  intro p q h
  induction h with
  | refl => exact le_refl _
  | tail _ hstep ih => exact le_trans ih (step_stage_mono hstep)

/-- Witness for C6: one concrete valid transition, uploaded → extracted. -/
theorem stage_monotone_witness :
    StepStar ⟨.uploaded, .in_progress⟩ ⟨.extracted, .in_progress⟩
    ∧ (⟨.uploaded, .in_progress⟩ : DocumentPair).currentStage.idx
        ≤ (⟨.extracted, .in_progress⟩ : DocumentPair).currentStage.idx := by
  have hstep : Step ⟨.uploaded, .in_progress⟩ ⟨.extracted, .in_progress⟩ := by
    have h := Step.advance ⟨.uploaded, .in_progress⟩ .extracted rfl
      ⟨by decide, by decide⟩ (fun hc => absurd hc (by decide))
    exact h
  exact ⟨Relation.ReflTransGen.single hstep,
    stage_monotone _ _ (Relation.ReflTransGen.single hstep)⟩

/-- C7: the approval action succeeds only when `overall_status` is not
`needs_review`; attempted while `needs_review` it is rejected with a
precondition error and leaves the pair unchanged; the frontend Approve
button is likewise disabled while review is required. -/
theorem approve_requires_not_needs_review :
    ∀ p : DocumentPair,
      (p.overallStatus = .needs_review →
        approve p = .error .precondition ∧ approveRun p = p)
      ∧ (∀ q, approve p = .ok q → p.overallStatus ≠ .needs_review)
      ∧ (∀ loading : Bool, approveButtonDisabled loading true = true) := by
  intro p
  refine ⟨?_, ?_, ?_⟩
  · intro h
    have ha : approve p = .error .precondition := by
      unfold approve
      rw [if_pos h]
    exact ⟨ha, by unfold approveRun; rw [ha]⟩
  · intro q hq h
    unfold approve at hq
    rw [if_pos h] at hq
    cases hq
  · intro loading
    simp [approveButtonDisabled]

/-- Witness for C7: approving a validated pair that still needs review. -/
theorem approve_requires_not_needs_review_witness :
    approve ⟨.validated, .needs_review⟩ = .error .precondition
    ∧ approveRun ⟨.validated, .needs_review⟩ = ⟨.validated, .needs_review⟩ :=
  (approve_requires_not_needs_review ⟨.validated, .needs_review⟩).1 rfl

/-- C8 counterexample: with the non-empty reason "duplicate invoice" and
the state `rejected` — a state other than `approved` — the source-level
reject gate does not permit the rejection, contradicting "permitted from
every state except approved". -/
theorem reject_from_rejected_counterexample :
    (trimChars "duplicate invoice".toList).isEmpty = false
    ∧ "rejected" ≠ "approved"
    ∧ rejectAllowed "rejected" "duplicate invoice".toList = false := by
  refine ⟨by decide, by decide, by decide⟩

/-- C8 (amended): the reject action fails on a reason that is empty after
trimming, and is permitted exactly from the states that are neither
`approved` nor `rejected` (both terminal); from `rejected` no further
action is offered. -/
theorem reject_gate_amended :
    ∀ (status : String) (reason : List Char),
      (rejectAllowed status reason = true ↔
        ((trimChars reason).isEmpty = false
          ∧ status ≠ "approved" ∧ status ≠ "rejected"))
      ∧ (canApprove "rejected" = false ∧ canReject "rejected" = false
          ∧ canRoute "rejected" = false) := by
  intro status reason
  refine ⟨?_, by decide, by decide, by decide⟩
  unfold rejectAllowed canReject
  by_cases h1 : status = "approved"
  · subst h1
    simp [List.contains]
  · by_cases h2 : status = "rejected"
    · subst h2
      simp [List.contains]
    · have hc : (["approved", "rejected"].contains status) = false := by
        rcases hb : ["approved", "rejected"].contains status with _ | _
        · rfl
        · rcases (contains_two_iff status "approved" "rejected").mp hb with h | h
          · exact absurd h h1
          · exact absurd h h2
      rw [hc]
      simp [h1, h2]

/-- C9 counterexample: the declared `ValidationIssue` severity union of
`frontend/lib/api.ts` admits `'warning'`, which is not in the five-level
set {info, low, medium, high, critical}. -/
theorem warning_severity_counterexample :
    "warning" ∈ validationIssueSeverities ∧ "warning" ∉ fiveLevelSeverities := by
  decide

/-- C9 (amended): `MatchingIssueV2` severities all lie in the five-level
set, while `ValidationIssue` severities lie in the five-level set except
for the legacy `'warning'`. -/
theorem severity_scales_amended :
    (∀ s, s ∈ matchingIssueSeverities → s ∈ fiveLevelSeverities)
    ∧ (∀ s, s ∈ validationIssueSeverities →
        s ∈ fiveLevelSeverities ∨ s = "warning") := by
  constructor
  · intro s hs
    fin_cases hs <;> decide
  · intro s hs
    fin_cases hs <;> decide

/-- Witness for C9 (amended): both parts at concrete severities. -/
theorem severity_scales_amended_witness :
    "low" ∈ fiveLevelSeverities
    ∧ ("warning" ∈ fiveLevelSeverities ∨ "warning" = "warning") :=
  ⟨severity_scales_amended.1 "low" (by decide),
   severity_scales_amended.2 "warning" (by decide)⟩

/-- C10: `getSlaStatus` returns null without a deadline; `'overdue'` iff
the deadline is strictly before now; `'urgent'` iff not overdue and fewer
than two hours (7 200 000 ms) remain; otherwise `'ok'` with the remaining
whole hours and minutes. -/
theorem sla_status_classification :
    ∀ d now : ℤ,
      getSlaStatus none now = none
      ∧ (getSlaStatus (some d) now = some .overdue ↔ d < now)
      ∧ (getSlaStatus (some d) now = some .urgent ↔
          now ≤ d ∧ d - now < 7200000)
      ∧ (now ≤ d → 7200000 ≤ d - now →
          getSlaStatus (some d) now =
            some (.due ⌊((d - now : ℤ) : ℚ) / (1000 * 60 * 60)⌋
              ⌊(((d - now : ℤ) : ℚ) / (1000 * 60 * 60)
                  - ⌊((d - now : ℤ) : ℚ) / (1000 * 60 * 60)⌋) * 60⌋)) := by
  intro d now
  have hpos : (0:ℚ) < 1000 * 60 * 60 := by norm_num
  have hlt0 : (((d - now : ℤ) : ℚ) / (1000 * 60 * 60) < 0) ↔ d < now := by
    rw [div_lt_iff₀ hpos, zero_mul]
    exact_mod_cast sub_neg
  have hlt2 : (((d - now : ℤ) : ℚ) / (1000 * 60 * 60) < 2) ↔ d - now < 7200000 := by
    have h2c : ((2:ℚ) * (1000 * 60 * 60)) = ((7200000 : ℤ) : ℚ) := by norm_num
    rw [div_lt_iff₀ hpos, h2c, Int.cast_lt]
  refine ⟨rfl, ?_, ?_, ?_⟩
  · simp only [getSlaStatus]
    split_ifs with h1 h2
    · exact iff_of_true rfl (hlt0.mp h1)
    · exact iff_of_false (by simp) (fun hc => h1 (hlt0.mpr hc))
    · exact iff_of_false (by simp) (fun hc => h1 (hlt0.mpr hc))
  · simp only [getSlaStatus]
    split_ifs with h1 h2
    · exact iff_of_false (by simp)
        (fun hc => absurd (hlt0.mp h1) (not_lt.mpr hc.1))
    · refine iff_of_true rfl ⟨?_, hlt2.mp h2⟩
      exact not_lt.mp (fun hc => h1 (hlt0.mpr hc))
    · exact iff_of_false (by simp) (fun hc => h2 (hlt2.mpr hc.2))
  · intro ha hb
    simp only [getSlaStatus]
    split_ifs with h1 h2
    · exact absurd (hlt0.mp h1) (not_lt.mpr ha)
    · exact absurd (hlt2.mp h2) (not_lt.mpr hb)
    · rfl

/-- Witness for C10: a deadline 10 000 000 ms in the future is classified
with remaining hours and minutes. -/
theorem sla_status_classification_witness :
    getSlaStatus (some 10000000) 0 =
      some (.due ⌊((10000000 - 0 : ℤ) : ℚ) / (1000 * 60 * 60)⌋
        ⌊(((10000000 - 0 : ℤ) : ℚ) / (1000 * 60 * 60)
            - ⌊((10000000 - 0 : ℤ) : ℚ) / (1000 * 60 * 60)⌋) * 60⌋) :=
  (sla_status_classification 10000000 0).2.2.2 (by norm_num) (by norm_num)

end AP
